import Mathlib

/-!
# Hospital Management System — verification of the data-management layer

Shallow embedding of `src/data_manager.py` (class `HospitalDataManager`) and
`src/analytics.py` (class `HospitalAnalytics`).

Modelling conventions:
* Each CSV file is a `List` of records, in row order; `pd.concat` + `to_csv`
  is modelled as appending to the list.  The four files together form an
  `HState`.
* A CSV cell that may be missing (`NaN` after `pd.read_csv`) is an `Option`
  value; `df.fillna('')` turns a missing cell into the empty string, which
  makes a previously numeric column an `object` (mixed) column — numeric
  reductions such as `.mean()` then raise `TypeError`.  This is modelled
  explicitly in `ageMeanAfterFill`.
* `datetime.now()` strings are passed in as explicit parameters (`today`,
  `due`, `ts`): the functions are otherwise pure.
* Monetary amounts and means are rationals (`ℚ`); ids and ages are `Int`
  (the code coerces them with `int(...)` / `float(...)` at creation).
* `pandas.Series.str.contains(pat)` interprets `pat` as a regular
  expression.  The fragment of Python's regex language exercised here
  (literal characters and the `.` wildcard, with optional `IGNORECASE`)
  is embedded as `Tok`/`containsMatch`; theorems about literal-substring
  behaviour are restricted to terms made of non-metacharacters, where this
  fragment coincides with Python's semantics.
-/

/-- A row of `patients.csv`.  `age` is `Option Int`: `none` models a cell
that is `NaN` after `pd.read_csv` (possible when the file was edited
externally; `add_patient` always writes an integer). -/
structure Patient where
  patient_id : Int
  name : String
  age : Option Int
  gender : String
  contact : String
  address : String
  email : String
  registration_date : String
  blood_group : String
  deriving Repr, DecidableEq

/-- A row of `appointments.csv`. -/
structure Appointment where
  appointment_id : Int
  patient_id : Int
  patient_name : String
  doctor_name : String
  department : String
  appointment_date : String
  appointment_time : String
  status : String
  notes : String
  deriving Repr, DecidableEq

/-- A row of `medical_records.csv`. -/
structure MedicalRecord where
  record_id : Int
  patient_id : Int
  visit_date : String
  symptoms : String
  diagnosis : String
  treatment : String
  medication : String
  tests : String
  notes : String
  deriving Repr, DecidableEq

/-- A row of `billing.csv`.  `amount` is a rational: `generate_bill` always
writes `float(amount)` and the scenarios use exact decimal values. -/
structure Bill where
  bill_id : Int
  patient_id : Int
  patient_name : String
  bill_date : String
  service_type : String
  description : String
  amount : ℚ
  status : String
  due_date : String
  deriving Repr, DecidableEq

/-- The four data files managed by `HospitalDataManager`. -/
structure HState where
  patients : List Patient
  appointments : List Appointment
  medicals : List MedicalRecord
  bills : List Bill
  deriving Repr, DecidableEq

/-- `pandas` column maximum with `skipna=True`: the maximum of the present
values, `none` when no value is present.  Used by `_generate_id` through
`df[id_column].max()`. -/
def maxSome : List (Option Int) → Option Int
  | [] => none
  | none :: rest => maxSome rest
  | some v :: rest =>
      match maxSome rest with
      | none => some v
      | some m => some (max v m)

/-- `HospitalDataManager._generate_id` (src/data_manager.py:294-304) on the
id column of a collection: `1001` when the frame has no rows, `1001` when
the column maximum is `NaN` (`pd.isna(max_id)`), otherwise `int(max_id)+1`.
The `except: return 1001` branch of the source guards non-numeric id
columns, which cannot arise in this integer-column model. -/
def generateId (ids : List (Option Int)) : Int :=
  if ids.length == 0 then 1001
  else
    match maxSome ids with
    | none => 1001
    | some m => m + 1

theorem maxSome_of_allNone {ids : List (Option Int)}
    (h : ∀ x ∈ ids, x = none) : maxSome ids = none := by
  induction ids with
  | nil => rfl
  | cons hd tl ih =>
      have hhd := h hd (List.mem_cons_self hd tl)
      subst hhd
      exact ih (fun x hx => h x (List.mem_cons_of_mem _ hx))

theorem le_maxSome_of_mem {ids : List (Option Int)} {i : Int}
    (h : some i ∈ ids) : ∃ m, maxSome ids = some m ∧ i ≤ m := by
  induction ids with
  | nil => cases h
  | cons hd tl ih =>
      rcases List.mem_cons.mp h with hhd | htl
      · subst hhd
        cases hmax : maxSome tl with
        | none => exact ⟨i, by simp [maxSome, hmax], le_refl i⟩
        | some m => exact ⟨max i m, by simp [maxSome, hmax], le_max_left i m⟩
      · obtain ⟨m, hm, him⟩ := ih htl
        cases hd with
        | none => exact ⟨m, by simp [maxSome, hm], him⟩
        | some v =>
            exact ⟨max v m, by simp [maxSome, hm], le_trans him (le_max_right v m)⟩

theorem maxSome_mem {ids : List (Option Int)} {m : Int}
    (h : maxSome ids = some m) : some m ∈ ids := by
  induction ids with
  | nil => simp [maxSome] at h
  | cons hd tl ih =>
      cases hd with
      | none =>
          simp only [maxSome] at h
          exact List.mem_cons_of_mem _ (ih h)
      | some v =>
          simp only [maxSome] at h
          cases hmax : maxSome tl with
          | none =>
              rw [hmax] at h
              simp at h
              subst h
              exact List.mem_cons_self _ _
          | some m2 =>
              rw [hmax] at h
              simp at h
              rcases max_choice v m2 with hc | hc <;> rw [hc] at h
              · subst h; exact List.mem_cons_self _ _
              · subst h; exact List.mem_cons_of_mem _ (ih hmax)

/-- C3: the generated id is `1001` on an empty collection or when no id cell
holds an integer; it is `max + 1` when `m` is the greatest id present; and
it never equals an id already present. -/
theorem generateId_spec (ids : List (Option Int)) :
    ((∀ x ∈ ids, x = none) → generateId ids = 1001) ∧
    (∀ m : Int, (some m ∈ ids ∧ ∀ i : Int, some i ∈ ids → i ≤ m) →
      generateId ids = m + 1) ∧
    (∀ i : Int, some i ∈ ids → generateId ids ≠ i) := by
  refine ⟨?_, ?_, ?_⟩
  · intro hall
    cases ids with
    | nil => rfl
    | cons hd tl =>
        have : maxSome (hd :: tl) = none := maxSome_of_allNone hall
        simp [generateId, this]
  · rintro m ⟨hmem, hub⟩
    obtain ⟨M, hM, hmM⟩ := le_maxSome_of_mem hmem
    have hMmem : some M ∈ ids := maxSome_mem hM
    have hMle : M ≤ m := hub M hMmem
    have hMm : M = m := le_antisymm hMle hmM
    have hne : ids ≠ [] := by
      intro hnil; rw [hnil] at hmem; cases hmem
    have hlen : (ids.length == 0) = false := by
      cases ids with
      | nil => exact absurd rfl hne
      | cons hd tl => rfl
    simp [generateId, hlen, hM, hMm]
  · intro i hmem hcontra
    obtain ⟨M, hM, hiM⟩ := le_maxSome_of_mem hmem
    have hne : ids ≠ [] := by
      intro hnil; rw [hnil] at hmem; cases hmem
    have hlen : (ids.length == 0) = false := by
      cases ids with
      | nil => exact absurd rfl hne
      | cons hd tl => rfl
    simp [generateId, hlen, hM] at hcontra
    omega

/-- Witness for `generateId_spec` at the concrete column `[1001, 1005]`. -/
theorem generateId_spec_witness :
    generateId [some 1001, some 1005] = 1005 + 1 ∧
    generateId ([] : List (Option Int)) = 1001 := by
  constructor
  · exact (generateId_spec [some 1001, some 1005]).2.1 1005
      ⟨by decide, by intro i hi; simp at hi; rcases hi with h | h <;> omega⟩
  · exact (generateId_spec []).1 (by intro x hx; cases hx)

/-! ## Regex fragment used by `pandas.Series.str.contains`

`search_patients` (src/data_manager.py:112-124) calls
`str.contains(pat, case=False)` on the `name` column and
`str.contains(pat)` on the stringified `patient_id` column; both treat
`pat` as a Python regular expression and test whether it matches anywhere
in the cell.  We embed the fragment consisting of literal characters and
the `.` wildcard (any character except a newline, the `re` default). -/

/-- One token of the embedded regex fragment. -/
inductive Tok where
  | lit (c : Char)
  | dot
  deriving Repr, DecidableEq

/-- Compile one pattern character: `.` is the wildcard, anything else a
literal.  Other Python metacharacters are outside the embedded fragment;
theorems quantifying over terms restrict to `plainChar` characters. -/
def toTok (c : Char) : Tok :=
  if c = '.' then Tok.dot else Tok.lit c

/-- Compile a pattern, given as its character list. -/
def parsePat (l : List Char) : List Tok := l.map toTok

/-- ASCII lowering of a character list; `re.IGNORECASE` matching of the
embedded fragment coincides with lowering both pattern and subject. -/
def lowerL (l : List Char) : List Char := l.map Char.toLower

/-- Does a token match one character?  `.` matches anything but `\n`. -/
def tokMatches : Tok → Char → Bool
  | Tok.lit l, c => l == c
  | Tok.dot, c => c != '\n'

/-- Does the pattern match a prefix of `s`? -/
def matchHere : List Tok → List Char → Bool
  | [], _ => true
  | _ :: _, [] => false
  | t :: ts, c :: cs => tokMatches t c && matchHere ts cs

/-- `re.search` semantics: does the pattern match starting at some
position of `s` (including the position after the last character)? -/
def containsMatch (p : List Tok) : List Char → Bool
  | [] => matchHere p []
  | c :: cs => matchHere p (c :: cs) || containsMatch p cs

/-- Literal prefix test (case handled by the caller). -/
def startsWithL : List Char → List Char → Bool
  | [], _ => true
  | _ :: _, [] => false
  | a :: as2, b :: bs => a == b && startsWithL as2 bs

/-- Literal substring test: the plain-string reading of the spec's
"contains the term as a substring". -/
def substrB (pat : List Char) : List Char → Bool
  | [] => startsWithL pat []
  | c :: cs => startsWithL pat (c :: cs) || substrB pat cs

/-- Characters that Python's `re` treats as metacharacters (the braces are
written by code point to keep them out of string literals). -/
def regexMeta : List Char :=
  ['.', '^', '$', '*', '+', '?', '(', ')', '[', ']', '|', '\\',
   Char.ofNat 123, Char.ofNat 125]

/-- A character the embedded fragment treats literally, matching Python. -/
def plainChar (c : Char) : Bool := !(regexMeta.contains c)

/-- `HospitalDataManager.search_patients` (src/data_manager.py:112-124):
keeps the rows whose `name` matches the term as a case-insensitive regex
(`case=False` compiles with `re.IGNORECASE`; on the embedded fragment this
is lowering both sides) or whose stringified `patient_id` matches it
case-sensitively.  An empty frame is returned unchanged, which the filter
subsumes.  `na=False` has no effect here because `astype(str)` leaves no
missing cells. -/
def search_patients (patients : List Patient) (term : String) : List Patient :=
  patients.filter (fun p =>
    containsMatch (parsePat (lowerL term.toList)) (lowerL p.name.toList)
    || containsMatch (parsePat term.toList) (toString p.patient_id).toList)

/-- `HospitalDataManager.get_patient_by_id` (src/data_manager.py:126-136):
rows with `patient_id` equal to the argument.  The `fillna('')` on the
result only normalises cell values and does not change which rows are
selected, so it is not modelled. -/
def get_patient_by_id (patients : List Patient) (pid : Int) : List Patient :=
  patients.filter (fun p => p.patient_id == pid)

/-! ## Write operations

Each `add_*` method reads the relevant CSVs, possibly checks the patient
reference, assigns an id with `_generate_id`, appends the new row and
rewrites the file.  Here each returns the new id (or `none`, the null-id
sentinel of the source's `return None`) together with the new state; on
failure the state is returned unchanged, matching the source, which
returns before any `to_csv` call. -/

/-- `HospitalDataManager.add_patient` (src/data_manager.py:76-101).  The
`age` argument is the already-coerced `int(age)`; `registration_date`
(`datetime.now().strftime` in the source) is the parameter `today`.  No
validation beyond the coercion is performed. -/
def add_patient (s : HState) (name : String) (age : Int)
    (gender contact address email blood_group today : String) :
    Option Int × HState :=
  let pid := generateId (s.patients.map (fun p => some p.patient_id))
  let p : Patient :=
    { patient_id := pid, name := name, age := some age, gender := gender,
      contact := contact, address := address, email := email,
      registration_date := today, blood_group := blood_group }
  (some pid, { s with patients := s.patients ++ [p] })

/-- `HospitalDataManager.schedule_appointment` (src/data_manager.py:140-173).
Looks the patient up by `patient_id`; when no row matches it prints a
message and returns `None` without writing; otherwise it takes the first
matching row's `name`, assigns an id and appends a row with status
`"Scheduled"`. -/
def schedule_appointment (s : HState) (patient_id : Int)
    (doctor_name department appointment_date appointment_time notes : String) :
    Option Int × HState :=
  match s.patients.filter (fun p => p.patient_id == patient_id) with
  | [] => (none, s)
  | p :: _ =>
      let aid := generateId (s.appointments.map (fun a => some a.appointment_id))
      let a : Appointment :=
        { appointment_id := aid, patient_id := patient_id,
          patient_name := p.name, doctor_name := doctor_name,
          department := department, appointment_date := appointment_date,
          appointment_time := appointment_time, status := "Scheduled",
          notes := notes }
      (some aid, { s with appointments := s.appointments ++ [a] })

/-- `HospitalDataManager.add_medical_record` (src/data_manager.py:197-222).
Note: unlike `schedule_appointment` and `generate_bill`, this method never
consults `patients.csv` — it assigns an id and appends unconditionally.
`visit_date` (`datetime.now()` in the source) is the parameter `today`. -/
def add_medical_record (s : HState) (patient_id : Int)
    (symptoms diagnosis treatment medication tests notes today : String) :
    Option Int × HState :=
  let rid := generateId (s.medicals.map (fun r => some r.record_id))
  let r : MedicalRecord :=
    { record_id := rid, patient_id := patient_id, visit_date := today,
      symptoms := symptoms, diagnosis := diagnosis, treatment := treatment,
      medication := medication, tests := tests, notes := notes }
  (some rid, { s with medicals := s.medicals ++ [r] })

/-- `HospitalDataManager.generate_bill` (src/data_manager.py:237-270).
Same reference check as `schedule_appointment`; on success appends a row
with status `"Pending"`, `bill_date = today` and
`due_date = today + 30 days` (parameter `due`). -/
def generate_bill (s : HState) (patient_id : Int)
    (service_type description : String) (amount : ℚ) (today due : String) :
    Option Int × HState :=
  match s.patients.filter (fun p => p.patient_id == patient_id) with
  | [] => (none, s)
  | p :: _ =>
      let bid := generateId (s.bills.map (fun b => some b.bill_id))
      let b : Bill :=
        { bill_id := bid, patient_id := patient_id, patient_name := p.name,
          bill_date := today, service_type := service_type,
          description := description, amount := amount,
          status := "Pending", due_date := due }
      (some bid, { s with bills := s.bills ++ [b] })

/-! ## Analytics (`src/analytics.py`, class `HospitalAnalytics`)

Chart rendering (`plotly` calls) is presentational and scoped out of the
spec; only the statistics dictionaries are embedded.  Each generator
catches every exception and returns an `{error: message}` payload
instead, which the `err` constructors model. -/

/-- Number of occurrences of `x` in `l`. -/
def countOcc (l : List String) (x : String) : Nat :=
  (l.filter (fun y => y == x)).length

/-- Distinct values in first-encounter order. -/
def dedupFirst (l : List String) : List String :=
  l.foldl (fun acc x => if acc.contains x then acc else acc ++ [x]) []

/-- Insert a key/count pair into a list sorted by descending count,
after all entries with a count at least as large (stable). -/
def insertDesc (p : String × Nat) : List (String × Nat) → List (String × Nat)
  | [] => [p]
  | q :: qs => if q.2 < p.2 then p :: q :: qs else q :: insertDesc p qs

/-- Stable sort by descending count. -/
def sortDescByCount : List (String × Nat) → List (String × Nat)
  | [] => []
  | p :: ps => insertDesc p (sortDescByCount ps)

/-- `Series.value_counts()`: occurrence counts by descending frequency,
ties in first-encounter order. -/
def valueCounts (l : List String) : List (String × Nat) :=
  sortDescByCount ((dedupFirst l).map (fun k => (k, countOcc l k)))

/-- Lexicographic (code-point) strict order on strings, the order
`pandas` sorts string values by. -/
def strLtB : List Char → List Char → Bool
  | [], [] => false
  | [], _ :: _ => true
  | _ :: _, [] => false
  | a :: as2, b :: bs =>
      if a.val < b.val then true
      else if b.val < a.val then false
      else strLtB as2 bs

/-- `Series.mode().iloc[0]`: `mode()` returns the most frequent values
sorted ascending, so `iloc[0]` is the lexicographically smallest value of
maximal frequency; `"N/A"` is the source's fallback for an empty mode. -/
def modeString (l : List String) : String :=
  let keys := dedupFirst l
  let best := keys.foldr (fun k acc => Nat.max (countOcc l k) acc) 0
  match keys.filter (fun k => countOcc l k == best) with
  | [] => "N/A"
  | c :: cs => cs.foldl (fun m k => if strLtB k.toList m.toList then k else m) c

/-- `get_all_patients` (src/data_manager.py:103-110) applies `fillna('')`;
a missing age becomes `''`, turning the whole column into a mixed
`object` column.  `Series.mean()` then raises `TypeError` (strings and
numbers cannot be summed); otherwise it is the arithmetic mean.  This is
the age-mean computation of `generate_patient_statistics` line 105.
`intsMean` is the arithmetic mean (`Series.mean()` on a numeric column). -/
def intsMean (l : List Int) : ℚ :=
  ((l.map (fun v => (v : ℚ))).sum) / (l.length : ℚ)

def ageMeanAfterFill (ages : List (Option Int)) : Except String ℚ :=
  if ages.any (fun a => a.isNone) then
    Except.error "unsupported operand type(s) for +: float and str"
  else
    Except.ok (intsMean (ages.filterMap (fun a => a)))

/-- Minimum of a list of ages (`int(Series.min())`); total with default 0,
only used on non-empty lists. -/
def minAge : List Int → Int
  | [] => 0
  | v :: vs => vs.foldl min v

/-- Maximum of a list of ages (`int(Series.max())`). -/
def maxAge : List Int → Int
  | [] => 0
  | v :: vs => vs.foldl max v

/-- The `stats` dictionary built by `generate_patient_statistics`
(src/analytics.py:102-114). -/
structure PatientStats where
  total_patients : Nat
  average_age : ℚ
  min_age : Int
  max_age : Int
  gender_distribution : List (String × Nat)
  most_common_blood_group : String
  deriving Repr, DecidableEq

/-- Result of a report generator: the stats payload, or the
`{error: message}` payload produced by the `except` handler (or by the
empty-collection early return). -/
inductive PatientStatsResult where
  | ok (stats : PatientStats)
  | err (msg : String)
  deriving Repr, DecidableEq

/-- `HospitalAnalytics.generate_patient_statistics`
(src/analytics.py:49-121).  An empty collection returns the
`"No patient data available"` payload.  Otherwise the `stats` dict is
built; computing `average_age` evaluates `patients_df['age'].mean()` on
the `fillna('')`-normalised frame, which raises when any age is missing
and the `except` handler turns that into an error payload.  When all ages
are present the column stayed numeric: the guard
`not patients_df['age'].isna().all()` is true and the mean is returned,
and `min`/`max`/mode computations succeed. -/
def generate_patient_statistics (patients : List Patient) :
    PatientStatsResult :=
  if patients.length == 0 then
    PatientStatsResult.err "No patient data available"
  else
    match ageMeanAfterFill (patients.map (fun p => p.age)) with
    | Except.error e => PatientStatsResult.err e
    | Except.ok avg =>
        let ages := (patients.map (fun p => p.age)).filterMap (fun a => a)
        PatientStatsResult.ok
          { total_patients := patients.length
            average_age := avg
            min_age := minAge ages
            max_age := maxAge ages
            gender_distribution :=
              valueCounts (patients.map (fun p => p.gender))
            most_common_blood_group :=
              modeString (patients.map (fun p => p.blood_group)) }

/-- The `stats` dictionary of `generate_appointment_analytics`
(src/analytics.py:162-174). -/
structure AppointmentStats where
  total_appointments : Nat
  scheduled_appointments : Nat
  completed_appointments : Nat
  department_distribution : List (String × Nat)
  top_department : String
  deriving Repr, DecidableEq

/-- Result payload of `generate_appointment_analytics`. -/
inductive AppointmentStatsResult where
  | ok (stats : AppointmentStats)
  | err (msg : String)
  deriving Repr, DecidableEq

/-- `HospitalAnalytics.generate_appointment_analytics`
(src/analytics.py:123-180): status counts and the department
distribution; `top_department` is `dept_counts.index[0]`, the head of the
`value_counts` ordering. -/
def generate_appointment_analytics (appts : List Appointment) :
    AppointmentStatsResult :=
  if appts.length == 0 then
    AppointmentStatsResult.err "No appointment data available"
  else
    let deptCounts := valueCounts (appts.map (fun a => a.department))
    AppointmentStatsResult.ok
      { total_appointments := appts.length
        scheduled_appointments :=
          (appts.filter (fun a => a.status == "Scheduled")).length
        completed_appointments :=
          (appts.filter (fun a => a.status == "Completed")).length
        department_distribution := deptCounts
        top_department :=
          match deptCounts with
          | [] => "N/A"
          | (k, _) :: _ => k }

/-- The `stats` dictionary of `generate_financial_reports`
(src/analytics.py:222-234). -/
structure FinancialStats where
  total_revenue : ℚ
  total_bills : Nat
  pending_amount : ℚ
  paid_amount : ℚ
  average_bill_amount : ℚ
  most_profitable_service : String
  deriving Repr, DecidableEq

/-- Result payload of `generate_financial_reports`. -/
inductive FinancialStatsResult where
  | ok (stats : FinancialStats)
  | err (msg : String)
  deriving Repr, DecidableEq

/-- Revenue grouped on one `service_type` key
(`billing_df.groupby('service_type')['amount'].sum()`). -/
def revenueFor (bills : List Bill) (k : String) : ℚ :=
  ((bills.filter (fun b => b.service_type == k)).map (fun b => b.amount)).sum

/-- Insert into a lexicographically ascending key list (groupby sorts its
keys). -/
def insertKey (k : String) : List String → List String
  | [] => [k]
  | x :: xs =>
      if strLtB k.toList x.toList then k :: x :: xs
      else if k == x then x :: xs
      else x :: insertKey k xs

/-- The sorted distinct `service_type` keys of a groupby. -/
def serviceKeys (bills : List Bill) : List String :=
  (bills.map (fun b => b.service_type)).foldl (fun acc k => insertKey k acc) []

/-- `revenue_by_service.idxmax()`: the first key (in groupby key order)
attaining the maximal grouped revenue; `"N/A"` fallback for no keys. -/
def mostProfitable (bills : List Bill) : String :=
  match serviceKeys bills with
  | [] => "N/A"
  | k :: ks =>
      ks.foldl (fun best k2 =>
        if revenueFor bills best < revenueFor bills k2 then k2 else best) k

/-- `HospitalAnalytics.generate_financial_reports`
(src/analytics.py:182-241): on a non-empty collection, `total_revenue` is
the sum of the `amount` column, `pending_amount`/`paid_amount` the sums
over the rows whose `status` equals `"Pending"`/`"Paid"`. -/
def generate_financial_reports (bills : List Bill) : FinancialStatsResult :=
  if bills.length == 0 then
    FinancialStatsResult.err "No billing data available"
  else
    FinancialStatsResult.ok
      { total_revenue := ((bills.map (fun b => b.amount)).sum)
        total_bills := bills.length
        pending_amount :=
          (((bills.filter (fun b => b.status == "Pending")).map
            (fun b => b.amount)).sum)
        paid_amount :=
          (((bills.filter (fun b => b.status == "Paid")).map
            (fun b => b.amount)).sum)
        average_bill_amount :=
          ((bills.map (fun b => b.amount)).sum) / (bills.length : ℚ)
        most_profitable_service := mostProfitable bills }

/-- The `stats` dictionary of `generate_medical_analytics`
(src/analytics.py:276-284). -/
structure MedicalStats where
  total_medical_records : Nat
  diagnosis_distribution : List (String × Nat)
  most_common_diagnosis : String
  deriving Repr, DecidableEq

/-- Result payload of `generate_medical_analytics`. -/
inductive MedicalStatsResult where
  | ok (stats : MedicalStats)
  | err (msg : String)
  deriving Repr, DecidableEq

/-- `HospitalAnalytics.generate_medical_analytics`
(src/analytics.py:243-291): top diagnosis counts
(`value_counts().head(10)`, of which `head(5)` is reported) and the most
common diagnosis. -/
def generate_medical_analytics (recs : List MedicalRecord) :
    MedicalStatsResult :=
  if recs.length == 0 then
    MedicalStatsResult.err "No medical records data available"
  else
    let diagCounts :=
      (valueCounts (recs.map (fun r => r.diagnosis))).take 10
    MedicalStatsResult.ok
      { total_medical_records := recs.length
        diagnosis_distribution := diagCounts.take 5
        most_common_diagnosis :=
          match diagCounts with
          | [] => "N/A"
          | (k, _) :: _ => k }

/-- The composed dashboard structure of `generate_dashboard_summary`
(src/analytics.py:304-310): one key per sub-report plus a timestamp. -/
structure Dashboard where
  patient_stats : PatientStatsResult
  appointment_stats : AppointmentStatsResult
  financial_stats : FinancialStatsResult
  medical_stats : MedicalStatsResult
  timestamp : String
  deriving Repr, DecidableEq

/-- `HospitalAnalytics.generate_dashboard_summary`
(src/analytics.py:293-345): calls the four generators — each of which
catches its own exceptions and returns a payload — and composes the
results with a timestamp.  The summary chart and the JSON write are
presentational / I/O and are scoped out. -/
def generate_dashboard_summary (s : HState) (ts : String) : Dashboard :=
  { patient_stats := generate_patient_statistics s.patients
    appointment_stats := generate_appointment_analytics s.appointments
    financial_stats := generate_financial_reports s.bills
    medical_stats := generate_medical_analytics s.medicals
    timestamp := ts }

/-- Is a patient-stats payload the error payload? -/
def psIsErr : PatientStatsResult → Bool
  | PatientStatsResult.err _ => true
  | PatientStatsResult.ok _ => false

/-- The `average_age` entry of a patient-stats payload, when present. -/
def psAverage : PatientStatsResult → Option ℚ
  | PatientStatsResult.err _ => none
  | PatientStatsResult.ok st => some st.average_age

/-- The `total_revenue` entry of a financial payload, when present. -/
def frTotalRevenue : FinancialStatsResult → Option ℚ
  | FinancialStatsResult.err _ => none
  | FinancialStatsResult.ok st => some st.total_revenue

/-- The `pending_amount` entry of a financial payload, when present. -/
def frPending : FinancialStatsResult → Option ℚ
  | FinancialStatsResult.err _ => none
  | FinancialStatsResult.ok st => some st.pending_amount

/-- The `paid_amount` entry of a financial payload, when present. -/
def frPaid : FinancialStatsResult → Option ℚ
  | FinancialStatsResult.err _ => none
  | FinancialStatsResult.ok st => some st.paid_amount

/-! ## Lemmas relating the regex fragment to literal substring search -/

theorem containsMatch_nil (s : List Char) : containsMatch [] s = true := by
  induction s with
  | nil => rfl
  | cons c cs ih => simp [containsMatch, matchHere]

theorem matchHere_lits (pat s : List Char) :
    matchHere (pat.map Tok.lit) s = startsWithL pat s := by
  induction pat generalizing s with
  | nil => cases s <;> rfl
  | cons c cs ih =>
      cases s with
      | nil => rfl
      | cons b bs => simp [matchHere, startsWithL, tokMatches, ih]

theorem containsMatch_lits (pat s : List Char) :
    containsMatch (pat.map Tok.lit) s = substrB pat s := by
  induction s with
  | nil => simp [containsMatch, substrB, matchHere_lits]
  | cons c cs ih => simp [containsMatch, substrB, matchHere_lits, ih]

theorem toNat_ofNat_valid {n : Nat} (h : n.isValidChar) :
    (Char.ofNat n).toNat = n := by
  rw [Char.ofNat, dif_pos h]
  rfl

theorem toLower_eq_dot {c : Char} (h : Char.toLower c = '.') : c = '.' := by
  by_cases hcond : c.toNat >= 65 ∧ c.toNat <= 90
  · exfalso
    have hl : Char.toLower c = Char.ofNat (c.toNat + 32) := by
      unfold Char.toLower
      simp [hcond]
    rw [hl] at h
    have hv : (c.toNat + 32).isValidChar := Or.inl (by omega)
    have h2 := congrArg Char.toNat h
    rw [toNat_ofNat_valid hv] at h2
    have h46 : Char.toNat '.' = 46 := rfl
    rw [h46] at h2
    omega
  · have hl : Char.toLower c = c := by
      unfold Char.toLower
      simp [hcond]
    rwa [hl] at h

theorem parsePat_plain {l : List Char} (h : ∀ c ∈ l, c ≠ '.') :
    parsePat l = l.map Tok.lit := by
  induction l with
  | nil => rfl
  | cons c cs ih =>
      have hc := h c (List.mem_cons_self c cs)
      have ih2 := ih (fun x hx => h x (List.mem_cons_of_mem _ hx))
      simp only [parsePat, List.map_cons] at ih2 ⊢
      rw [ih2, show toTok c = Tok.lit c from by simp [toTok, hc]]

theorem plainChar_ne_dot {c : Char} (h : plainChar c = true) : c ≠ '.' := by
  intro hc
  subst hc
  simp [plainChar, regexMeta] at h

theorem lowerL_plain_ne_dot {l : List Char}
    (h : ∀ c ∈ l, plainChar c = true) : ∀ c ∈ lowerL l, c ≠ '.' := by
  intro c hc
  simp only [lowerL, List.mem_map] at hc
  obtain ⟨a, ha, rfl⟩ := hc
  intro hdot
  exact plainChar_ne_dot (h a ha) (toLower_eq_dot hdot)

/-! ## Concrete fixtures used by witnesses and counterexamples -/

/-- The spec's sample patient ("John Smith", first id 1001). -/
def pJohn : Patient :=
  { patient_id := 1001, name := "John Smith", age := some 35,
    gender := "Male", contact := "123-456-7890", address := "123 Main St",
    email := "", registration_date := "2024-01-01", blood_group := "O+" }

/-- A second patient. -/
def pAmy : Patient :=
  { patient_id := 1002, name := "Amy Lee", age := some 28,
    gender := "Female", contact := "555-0101", address := "45 Oak Ave",
    email := "", registration_date := "2024-01-03", blood_group := "A+" }

/-- A patient row whose `age` cell is missing in the CSV. -/
def pNoAge : Patient :=
  { patient_id := 1003, name := "Jane Doe", age := none,
    gender := "Female", contact := "555-0102", address := "9 Elm St",
    email := "", registration_date := "2024-01-04", blood_group := "" }

/-- Fresh stores: the four files right after `_init_data_files`. -/
def emptyState : HState :=
  { patients := [], appointments := [], medicals := [], bills := [] }

/-- First bill of the spec's financial scenario: 150.00, Pending. -/
def bill1 : Bill :=
  { bill_id := 1001, patient_id := 1001, patient_name := "John Smith",
    bill_date := "2024-01-10", service_type := "Consultation",
    description := "", amount := 150, status := "Pending",
    due_date := "2024-02-09" }

/-- Second bill of the scenario: 200.00, Paid. -/
def bill2 : Bill :=
  { bill_id := 1002, patient_id := 1001, patient_name := "John Smith",
    bill_date := "2024-01-11", service_type := "Surgery",
    description := "", amount := 200, status := "Paid",
    due_date := "2024-02-10" }

/-- Third bill of the scenario: 120.00, Pending. -/
def bill3 : Bill :=
  { bill_id := 1003, patient_id := 1001, patient_name := "John Smith",
    bill_date := "2024-01-12", service_type := "Lab Test",
    description := "", amount := 120, status := "Pending",
    due_date := "2024-02-11" }

/-- The billing collection of the spec's financial scenario: amounts
`[150.00, 200.00, 120.00]`, statuses `["Pending", "Paid", "Pending"]`. -/
def bills3 : List Bill := [bill1, bill2, bill3]

/-! ## Claim C2 — search semantics -/

/-- C2 counterexample: with "John Smith" on file, `search_patients("")`
returns the whole collection — the empty pattern matches every row — and
not the empty result the claim requires for every collection. -/
theorem search_empty_term_matches_all :
    search_patients [pJohn] "" = [pJohn] ∧
    search_patients [pJohn] "" ≠ [] := by decide

/-- C2 (amended): the empty term matches every record; a non-empty term
built only from non-metacharacters returns exactly the records whose
name contains the term as a case-insensitive substring or whose
stringified id contains it as a substring.  (Terms are regex patterns,
so metacharacter terms can match more — claim C10.) -/
theorem search_patients_behaviour (patients : List Patient) (term : String) :
    (term = "" → search_patients patients term = patients) ∧
    (term.toList.all plainChar = true →
      search_patients patients term =
        patients.filter (fun p =>
          substrB (lowerL term.toList) (lowerL p.name.toList)
          || substrB term.toList (toString p.patient_id).toList)) := by
  constructor
  · intro h
    subst h
    simp [search_patients, lowerL, parsePat, containsMatch_nil]
  · intro hplain
    have hplain2 : ∀ c ∈ term.toList, plainChar c = true := by
      simpa [List.all_eq_true] using hplain
    have hdot : ∀ c ∈ term.toList, c ≠ '.' :=
      fun c hc => plainChar_ne_dot (hplain2 c hc)
    unfold search_patients
    apply List.filter_congr
    intro p _
    rw [parsePat_plain (lowerL_plain_ne_dot hplain2), containsMatch_lits,
        parsePat_plain hdot, containsMatch_lits]

/-- Witness for `search_patients_behaviour` at the collection `[pJohn]`
with the terms `""` and `"smith"`. -/
theorem search_patients_behaviour_witness :
    search_patients [pJohn] "" = [pJohn] ∧
    search_patients [pJohn] "smith" =
      [pJohn].filter (fun p =>
        substrB (lowerL "smith".toList) (lowerL p.name.toList)
        || substrB "smith".toList (toString p.patient_id).toList) := by
  constructor
  · exact (search_patients_behaviour [pJohn] "").1 rfl
  · exact (search_patients_behaviour [pJohn] "smith").2 (by decide)

/-! ## Claim C10 — regex interpretation of search terms -/

/-- C10: the term `"."` is a regex wildcard: the search returns
"John Smith" (id 1001) although `"."` occurs literally neither in the
name (compared case-insensitively) nor in the stringified id. -/
theorem search_patients_dot_is_regex :
    search_patients [pJohn] "." = [pJohn] ∧
    substrB (lowerL ".".toList) (lowerL "John Smith".toList) = false ∧
    substrB ".".toList (toString (1001 : Int)).toList = false := by decide

/-! ## Claim C7 — lookup by id -/

theorem filter_id_eq_nil {patients : List Patient} {pid : Int}
    (h : ∀ p ∈ patients, p.patient_id ≠ pid) :
    patients.filter (fun p => p.patient_id == pid) = [] := by
  induction patients with
  | nil => rfl
  | cons q qs ih =>
      have hq : (q.patient_id == pid) = false := by
        simp [h q (List.mem_cons_self q qs)]
      simp only [List.filter, hq]
      exact ih (fun r hr => h r (List.mem_cons_of_mem _ hr))

theorem filter_id_unique {patients : List Patient} {p : Patient} {pid : Int}
    (hmem : p ∈ patients) (hid : p.patient_id = pid)
    (hnd : (patients.map (fun q => q.patient_id)).Nodup) :
    patients.filter (fun q => q.patient_id == pid) = [p] := by
  induction patients with
  | nil => cases hmem
  | cons q qs ih =>
      rw [List.map_cons, List.nodup_cons] at hnd
      obtain ⟨hqnotin, hndqs⟩ := hnd
      rcases List.mem_cons.mp hmem with rfl | hmemqs
      · have hq : (p.patient_id == pid) = true := by simp [hid]
        simp only [List.filter, hq]
        have hrest : ∀ r ∈ qs, r.patient_id ≠ pid := by
          intro r hr hc
          exact hqnotin (hid ▸ hc ▸ List.mem_map_of_mem (fun s => s.patient_id) hr)
        rw [filter_id_eq_nil hrest]
      · have hq : (q.patient_id == pid) = false := by
          have hne : q.patient_id ≠ pid := by
            intro hc
            exact hqnotin
              (hc ▸ hid ▸ List.mem_map_of_mem (fun s => s.patient_id) hmemqs)
          simp [hne]
        simp only [List.filter, hq]
        exact ih hmemqs hndqs

/-- C7: `get_patient_by_id` returns the empty result — not an error —
when the id is absent, and the single matching record when the id is
present and ids are unique. -/
theorem get_patient_by_id_spec (patients : List Patient) (pid : Int) :
    ((∀ p ∈ patients, p.patient_id ≠ pid) →
      get_patient_by_id patients pid = []) ∧
    (∀ p ∈ patients, p.patient_id = pid →
      (patients.map (fun q => q.patient_id)).Nodup →
      get_patient_by_id patients pid = [p]) := by
  constructor
  · intro h
    exact filter_id_eq_nil h
  · intro p hmem hid hnd
    exact filter_id_unique hmem hid hnd

/-- Witness for `get_patient_by_id_spec`: id 9999 is absent from
`[pJohn, pAmy]` and yields the empty result; id 1001 yields exactly
`[pJohn]`. -/
theorem get_patient_by_id_spec_witness :
    get_patient_by_id [pJohn, pAmy] 9999 = [] ∧
    get_patient_by_id [pJohn, pAmy] 1001 = [pJohn] := by
  constructor
  · exact (get_patient_by_id_spec [pJohn, pAmy] 9999).1 (by decide)
  · exact (get_patient_by_id_spec [pJohn, pAmy] 1001).2 pJohn
      (by decide) (by decide) (by decide)

/-! ## Claim C1 — reference checks on dependent-record creation -/

/-- C1 counterexample: on fresh stores (no patient at all),
`add_medical_record` for patient 999 succeeds with id 1001 and appends a
row — the claim's "all three dependent creations fail and leave the file
unchanged" is false for the MedicalRecord collection. -/
theorem add_medical_record_ignores_missing_patient :
    (add_medical_record emptyState 999 "cough" "flu" "rest" "paracetamol"
        "none" "" "2024-01-15").1 = some 1001 ∧
    (add_medical_record emptyState 999 "cough" "flu" "rest" "paracetamol"
        "none" "" "2024-01-15").2.medicals ≠ emptyState.medicals := by decide

/-- C1 (amended): for a `patient_id` not on file, `schedule_appointment`
and `generate_bill` return the null-id sentinel and leave the whole state
(in particular the target file) unchanged, while `add_medical_record`
performs no existence check: it returns a fresh id and appends the record
regardless. -/
theorem dependent_record_reference_checks (s : HState) (pid : Int)
    (dn dep ad atm no sy di tr me te mno today st de due : String) (am : ℚ)
    (h : ∀ p ∈ s.patients, p.patient_id ≠ pid) :
    schedule_appointment s pid dn dep ad atm no = (none, s) ∧
    generate_bill s pid st de am today due = (none, s) ∧
    (add_medical_record s pid sy di tr me te mno today).1 =
      some (generateId (s.medicals.map (fun r => some r.record_id))) ∧
    (add_medical_record s pid sy di tr me te mno today).2.medicals =
      s.medicals ++
        [{ record_id := generateId (s.medicals.map (fun r => some r.record_id)),
           patient_id := pid, visit_date := today, symptoms := sy,
           diagnosis := di, treatment := tr, medication := me, tests := te,
           notes := mno }] := by
  have hf : s.patients.filter (fun p => p.patient_id == pid) = [] :=
    filter_id_eq_nil h
  refine ⟨?_, ?_, rfl, rfl⟩
  · unfold schedule_appointment
    rw [hf]
  · unfold generate_bill
    rw [hf]

/-- Witness for `dependent_record_reference_checks` on fresh stores with
the absent patient id 999. -/
theorem dependent_record_reference_checks_witness :
    schedule_appointment emptyState 999 "Dr. Wilson" "Cardiology"
      "2024-01-15" "10:00 AM" "" = (none, emptyState) ∧
    generate_bill emptyState 999 "Consultation" "" 150 "2024-01-15"
      "2024-02-14" = (none, emptyState) := by
  have h := dependent_record_reference_checks emptyState 999 "Dr. Wilson"
    "Cardiology" "2024-01-15" "10:00 AM" "" "s" "d" "t" "m" "te" "n"
    "2024-01-15" "Consultation" "" "2024-02-14" 150
    (by intro p hp; cases hp)
  exact ⟨h.1, h.2.1⟩

/-! ## Claim C5 — appointment creation scenario -/

/-- C5: when some patient with id 1001 is on file (first match `p`) and
the appointment collection is empty, the scheduling call of the spec's
scenario returns id 1001 — the appointment id space starts at 1001
independently of the patient ids — and appends one row with
`patient_name = p.name` and `status = "Scheduled"`. -/
theorem schedule_appointment_scenario (s : HState) (p : Patient)
    (rest : List Patient)
    (hf : s.patients.filter (fun q => q.patient_id == 1001) = p :: rest)
    (he : s.appointments = []) :
    schedule_appointment s 1001 "Dr. Wilson" "Cardiology" "2024-01-15"
        "10:00 AM" "" =
      (some 1001,
       { s with appointments :=
          [{ appointment_id := 1001, patient_id := 1001,
             patient_name := p.name, doctor_name := "Dr. Wilson",
             department := "Cardiology", appointment_date := "2024-01-15",
             appointment_time := "10:00 AM", status := "Scheduled",
             notes := "" }] }) := by
  unfold schedule_appointment
  rw [hf, he]
  rfl

/-- Witness for `schedule_appointment_scenario`: stores holding exactly
the patient "John Smith" (id 1001) and no appointment. -/
theorem schedule_appointment_scenario_witness :
    schedule_appointment
        { patients := [pJohn], appointments := [], medicals := [],
          bills := [] } 1001 "Dr. Wilson" "Cardiology" "2024-01-15"
        "10:00 AM" "" =
      (some 1001,
       { patients := [pJohn],
         appointments :=
           [{ appointment_id := 1001, patient_id := 1001,
              patient_name := pJohn.name, doctor_name := "Dr. Wilson",
              department := "Cardiology", appointment_date := "2024-01-15",
              appointment_time := "10:00 AM", status := "Scheduled",
              notes := "" }],
         medicals := [], bills := [] }) := by
  exact schedule_appointment_scenario
    { patients := [pJohn], appointments := [], medicals := [], bills := [] }
    pJohn [] (by decide) rfl

/-! ## Claim C9 — ages stored by `add_patient` -/

/-- One `add_patient` call's inputs (already coerced, as in the source's
`int(age)` / `str(contact)`). -/
structure PatientInput where
  name : String
  age : Int
  gender : String
  contact : String
  address : String
  email : String
  blood_group : String
  today : String
  deriving Repr, DecidableEq

/-- A sequence of `add_patient` operations applied in order. -/
def addPatients (s : HState) : List PatientInput → HState
  | [] => s
  | i :: is2 =>
      addPatients
        (add_patient s i.name i.age i.gender i.contact i.address i.email
          i.blood_group i.today).2 is2

/-- C9 counterexample: `add_patient` applies only the `int(age)` coercion,
so the age `-5` is stored verbatim and the stored collection violates
`age ≥ 0`. -/
theorem add_patient_stores_negative_age :
    ((add_patient emptyState "Test" (-5) "Male" "111" "1 A St" "" ""
        "2024-01-01").2.patients.map (fun p => p.age)) = [some (-5)] ∧
    ¬ (0 : Int) ≤ -5 := by decide

/-- C9 (amended): after any sequence of `add_patient` operations the
stored ages are exactly the input ages (each present, equal to the
coerced input integer); `age ≥ 0` therefore holds only when every input
age was non-negative — the operation itself enforces no lower bound. -/
theorem addPatients_ages (s : HState) (inputs : List PatientInput) :
    (addPatients s inputs).patients.map (fun p => p.age) =
      s.patients.map (fun p => p.age) ++
        inputs.map (fun i => some i.age) := by
  induction inputs generalizing s with
  | nil => simp [addPatients]
  | cons i is2 ih =>
      rw [addPatients, ih]
      simp [add_patient]

/-! ## Claim C4 — financial aggregation -/

/-- C4: on a non-empty billing collection, `total_revenue` is the sum of
`amount` over all bills regardless of status, `pending_amount` the sum
over bills whose status is exactly `"Pending"`, and `paid_amount` the sum
over bills whose status is exactly `"Paid"`. -/
theorem financial_reports_sums (bills : List Bill) (h : bills ≠ []) :
    frTotalRevenue (generate_financial_reports bills) =
      some ((bills.map (fun b => b.amount)).sum) ∧
    frPending (generate_financial_reports bills) =
      some (((bills.filter (fun b => b.status == "Pending")).map
        (fun b => b.amount)).sum) ∧
    frPaid (generate_financial_reports bills) =
      some (((bills.filter (fun b => b.status == "Paid")).map
        (fun b => b.amount)).sum) := by
  have hlen : (bills.length == 0) = false := by
    cases bills with
    | nil => exact absurd rfl h
    | cons b bs => rfl
  unfold generate_financial_reports
  rw [hlen]
  exact ⟨rfl, rfl, rfl⟩

/-- Witness for `financial_reports_sums`: the spec's scenario collection
`bills3` yields `total_revenue = 470`, `pending_amount = 270`,
`paid_amount = 200`. -/
theorem financial_reports_sums_witness :
    frTotalRevenue (generate_financial_reports bills3) = some 470 ∧
    frPending (generate_financial_reports bills3) = some 270 ∧
    frPaid (generate_financial_reports bills3) = some 200 := by
  obtain ⟨h1, h2, h3⟩ := financial_reports_sums bills3 (by decide)
  refine ⟨?_, ?_, ?_⟩
  · rw [h1, show bills3.map (fun b => b.amount) = [150, 200, 120] from rfl]
    norm_num
  · rw [h2, show bills3.filter (fun b => b.status == "Pending") = [bill1, bill3]
        from rfl,
      show [bill1, bill3].map (fun b => b.amount) = [150, 120] from rfl]
    norm_num
  · rw [h3, show bills3.filter (fun b => b.status == "Paid") = [bill2]
        from rfl,
      show [bill2].map (fun b => b.amount) = [200] from rfl]
    norm_num

/-! ## Claim C6 — patient statistics and missing ages -/

/-- C6 counterexample: a non-empty collection whose only row has a
missing age.  `fillna('')` leaves the age column non-numeric, the mean
raises, and `generate_patient_statistics` answers with the error payload:
it neither ignores the missing age nor returns `average_age = 0`. -/
theorem patient_statistics_missing_age_error_payload :
    psIsErr (generate_patient_statistics [pNoAge]) = true ∧
    psAverage (generate_patient_statistics [pNoAge]) = none := by decide

/-- C6 (amended): on a non-empty collection where every age is present,
the report's `average_age` is the arithmetic mean of the ages; as soon as
one age is missing, the whole report degenerates to the error payload (so
missing ages are not ignored and an all-missing column does not yield
`average_age = 0`). -/
theorem patient_statistics_age_mean (patients : List Patient)
    (h : patients ≠ []) :
    ((∀ p ∈ patients, p.age.isSome) →
      psAverage (generate_patient_statistics patients) =
        some (intsMean (patients.filterMap (fun p => p.age)))) ∧
    ((∃ p ∈ patients, p.age = none) →
      psIsErr (generate_patient_statistics patients) = true) := by
  have hlen : (patients.length == 0) = false := by
    cases patients with
    | nil => exact absurd rfl h
    | cons p ps => rfl
  constructor
  · intro hall
    have hany : ((patients.map (fun p => p.age)).any
        (fun a => a.isNone)) = false := by
      rw [List.any_eq_false]
      intro a ha
      rw [List.mem_map] at ha
      obtain ⟨p, hp, rfl⟩ := ha
      have hs := hall p hp
      cases hpa : p.age with
      | none => rw [hpa] at hs; simp at hs
      | some v => simp
    have hvals : (patients.map (fun p => p.age)).filterMap (fun a => a) =
        patients.filterMap (fun p => p.age) := by
      rw [List.filterMap_map]
      rfl
    have hmean : ageMeanAfterFill (patients.map (fun p => p.age)) =
        Except.ok (intsMean (patients.filterMap (fun p => p.age))) := by
      unfold ageMeanAfterFill
      rw [hany, hvals]
      simp
    simp only [generate_patient_statistics, hlen, hmean, psAverage,
      Bool.false_eq_true, if_false]
  · rintro ⟨p, hp, hpage⟩
    have hany : ((patients.map (fun p => p.age)).any
        (fun a => a.isNone)) = true := by
      rw [List.any_eq_true]
      exact ⟨p.age, List.mem_map_of_mem _ hp, by rw [hpage]; rfl⟩
    have hmean : ∃ e, ageMeanAfterFill (patients.map (fun p => p.age)) =
        Except.error e := by
      unfold ageMeanAfterFill
      rw [hany]
      exact ⟨_, rfl⟩
    obtain ⟨e, he⟩ := hmean
    simp only [generate_patient_statistics, hlen, he, psIsErr,
      Bool.false_eq_true, if_false]

/-- Witness for `patient_statistics_age_mean`: `[pJohn]` (age 35) yields
mean 35; `[pJohn, pNoAge]` (one missing age) yields the error payload. -/
theorem patient_statistics_age_mean_witness :
    psAverage (generate_patient_statistics [pJohn]) = some 35 ∧
    psIsErr (generate_patient_statistics [pJohn, pNoAge]) = true := by
  constructor
  · have hm := (patient_statistics_age_mean [pJohn] (by decide)).1
      (by decide)
    rw [hm, show ([pJohn].filterMap (fun p => p.age)) = [35] from rfl]
    norm_num [intsMean]
  · exact (patient_statistics_age_mean [pJohn, pNoAge] (by decide)).2
      ⟨pNoAge, by decide, rfl⟩

/-! ## Claim C8 — dashboard composition -/

/-- C8: the dashboard always carries all four sub-report keys plus the
timestamp, each key holding exactly its own generator's payload (which is
the `{error: message}` payload when that sub-report failed); a failing
patient report leaves the other keys' payloads intact, and the financial
key does not depend on the patient collection at all. -/
theorem dashboard_composition (patients patients2 : List Patient)
    (appts : List Appointment) (recs : List MedicalRecord)
    (bills : List Bill) (ts : String) :
    (generate_dashboard_summary
        { patients := patients, appointments := appts, medicals := recs,
          bills := bills } ts) =
      { patient_stats := generate_patient_statistics patients,
        appointment_stats := generate_appointment_analytics appts,
        financial_stats := generate_financial_reports bills,
        medical_stats := generate_medical_analytics recs,
        timestamp := ts } ∧
    (psIsErr (generate_patient_statistics patients) = true →
      (generate_dashboard_summary
          { patients := patients, appointments := appts, medicals := recs,
            bills := bills } ts).financial_stats =
        generate_financial_reports bills ∧
      psIsErr ((generate_dashboard_summary
          { patients := patients, appointments := appts, medicals := recs,
            bills := bills } ts).patient_stats) = true) ∧
    ((generate_dashboard_summary
        { patients := patients2, appointments := appts, medicals := recs,
          bills := bills } ts).financial_stats =
      (generate_dashboard_summary
        { patients := patients, appointments := appts, medicals := recs,
          bills := bills } ts).financial_stats) := by
  exact ⟨rfl, fun h => ⟨rfl, h⟩, rfl⟩

/-- Witness for `dashboard_composition`: with `[pNoAge]` on file the
patient sub-report fails, yet the composed dashboard still carries the
financial payload of `bills3` and the error payload under the patient
key. -/
theorem dashboard_composition_witness :
    psIsErr (generate_patient_statistics [pNoAge]) = true ∧
    (generate_dashboard_summary
        { patients := [pNoAge], appointments := [], medicals := [],
          bills := bills3 } "2024-01-20 10:00:00").financial_stats =
      generate_financial_reports bills3 ∧
    psIsErr ((generate_dashboard_summary
        { patients := [pNoAge], appointments := [], medicals := [],
          bills := bills3 } "2024-01-20 10:00:00").patient_stats) = true := by
  have h := (dashboard_composition [pNoAge] [pJohn] [] [] bills3
    "2024-01-20 10:00:00").2.1 (by decide)
  exact ⟨by decide, h.1, h.2⟩
